import Mathlib

/-!
Shallow embedding of `pyinterpret/model/model.py` (the `Model` class):
output-signature inference (`check_output_signature`), the one-hot
normalization transform (`predict_function_transformer`), transformer
selection (`return_transformer_func`) and the diagnostic report
(`model_report`), together with proofs about the claims of the
specification.

Array elements (`Val`) model the scalar values a numpy prediction array can
hold: integers, strings, floats (modelled as rationals), and a catch-all
for any other dtype.  Prediction outputs (`NDArray`) model numpy arrays of
rank 0 to 3.  The enumerations mirror the `StaticTypes` sentinels of
`pyinterpret.util.static_types` (that module is not part of the sources;
it is modelled from the spec where noted).
-/

/-- A scalar element of a numpy array: integer, string, float (modelled as a
rational) or some other dtype. -/
inductive Val : Type
  | vint (n : Int)
  | vstr (s : String)
  | vfloat (q : Rat)
  | vother
deriving DecidableEq, Repr

/-- Key used to lift a linear order onto `Val`: integers, then strings, then
floats, then the other dtype, lexicographically. -/
def valKey : Val → Lex (Sum Int (Lex (Sum String (Lex (Sum Rat Bool)))))
  | .vint n => toLex (Sum.inl n)
  | .vstr s => toLex (Sum.inr (toLex (Sum.inl s)))
  | .vfloat q => toLex (Sum.inr (toLex (Sum.inr (toLex (Sum.inl q)))))
  | .vother => toLex (Sum.inr (toLex (Sum.inr (toLex (Sum.inr true)))))

theorem valKey_injective : Function.Injective valKey := by
  intro a b h
  cases a <;> cases b <;> simp [valKey] at h <;> simp [h]

/-- Total order on scalar values, as used by the label encoder when it sorts
the distinct labels (`np.unique`). -/
instance : LinearOrder Val := LinearOrder.lift' valKey valKey_injective

/-- Output element types: the `StaticTypes.output_types` enumeration plus the
`unknown` sentinel.  Modelled from the spec: `output_var_type` is enumerated
as one of unknown, string, int, float. -/
inductive OutputType : Type
  | unknown
  | string
  | int
  | float
deriving DecidableEq, Repr

/-- Model types: the `StaticTypes.model_types` enumeration plus the `unknown`
sentinel.  Modelled from the spec: `model_type` is enumerated as one of
unknown, classifier, regressor. -/
inductive ModelType : Type
  | unknown
  | classifier
  | regressor
deriving DecidableEq, Repr

/-- The tri-state `probability` attribute plus its `unknown` sentinel.  The
sentinels `StaticTypes.unknown` and `StaticTypes.not_applicable` are truthy
values distinct from the booleans (modelled from the spec: a distinct
sentinel type distinguishes "not yet inferred" from booleans). -/
inductive ProbState : Type
  | unknown
  | ptrue
  | pfalse
  | notApplicable
deriving DecidableEq, Repr

/-- A shape attribute: either the `unknown` sentinel or a tuple of dimension
sizes captured from an inference call. -/
inductive ShapeState : Type
  | unknown
  | shape (dims : List Nat)
deriving DecidableEq, Repr

/-- The `n_classes` attribute: either the `unknown` sentinel or a count. -/
inductive NClasses : Type
  | unknown
  | n (k : Nat)
deriving DecidableEq, Repr

/-- The cached `formatter` attribute, defunctionalized: either the identity
`lambda x: x` or the bound method `predict_function_transformer`. -/
inductive Formatter : Type
  | identity
  | oneHot
deriving DecidableEq, Repr

/-- The `examples` attribute: `np.array(None)` (set by `__init__`, nothing
bound yet) or a bound 2-D batch (set by `set_examples`). -/
inductive ExamplesState : Type
  | noneArr
  | arr (m : List (List Val))
deriving DecidableEq, Repr

/-- A numpy array of rank 0, 1, 2 or 3 holding scalar values. -/
inductive NDArray : Type
  | scalar (v : Val)
  | one (xs : List Val)
  | two (m : List (List Val))
  | three (t : List (List (List Val)))
deriving DecidableEq, Repr

/-- The result of indexing an `NDArray` at position 0 (`outputs[0]`). -/
inductive NDSub : Type
  | cell (v : Val)
  | row (r : List Val)
  | mat (m : List (List Val))
deriving DecidableEq, Repr

/-- One line of the diagnostic report built by `model_report`. -/
inductive ReportLine : Type
  | exampleLine (row : List Val)
  | outputsLine (out : NDSub)
  | modelTypeLine (m : ModelType)
  | outputVarTypeLine (t : OutputType)
  | outputShapeLine (s : ShapeState)
  | nClassesLine (c : NClasses)
  | inputShapeLine (s : ShapeState)
  | probabilityLine (p : ProbState)
deriving DecidableEq, Repr

/-- A message emitted through the logging collaborator. -/
inductive LogMsg : Type
  | warn (msg : String)
  | debug (line : ReportLine)
deriving DecidableEq, Repr

/-- The exceptions `check_output_signature` and `model_report` can raise:
`exceptions.ModelError`, `ValueError`, and `IndexError` (from indexing an
empty array). -/
inductive ModelErr : Type
  | modelError (msg : String)
  | valueError (msg : String)
  | indexError
deriving DecidableEq, Repr

/-- The mutable attributes of a `Model` instance set by `__init__`. -/
structure ModelState : Type where
  examples : ExamplesState
  model_type : ModelType
  output_var_type : OutputType
  output_shape : ShapeState
  n_classes : NClasses
  input_shape : ShapeState
  probability : ProbState
  formatter : Formatter
deriving DecidableEq, Repr

/-- The attribute values established by `Model.__init__`: every inferred
attribute holds its sentinel, `examples` is `np.array(None)`, and the
formatter defaults to the identity `lambda x: x`. -/
def initState : ModelState where
  examples := ExamplesState.noneArr
  model_type := ModelType.unknown
  output_var_type := OutputType.unknown
  output_shape := ShapeState.unknown
  n_classes := NClasses.unknown
  input_shape := ShapeState.unknown
  probability := ProbState.unknown
  formatter := Formatter.identity

/-- Embeds `Model.set_examples`: stores the batch as `self.examples`. -/
def set_examples (st : ModelState) (examples : List (List Val)) : ModelState :=
  { st with examples := ExamplesState.arr examples }

/-- Modelled from the spec: `return_data_type` of `pyinterpret.util.
static_types` (not under the sources) maps a scalar to its inferred element
type in the enumeration unknown, string, int, float. -/
def return_data_type : Val → OutputType
  | .vint _ => OutputType.int
  | .vstr _ => OutputType.string
  | .vfloat _ => OutputType.float
  | .vother => OutputType.unknown

/-- Python truthiness of a scalar array element, as used by `ndarray.any`:
zero numbers and the empty string are falsy. -/
def truthyVal : Val → Bool
  | .vint n => n != 0
  | .vstr s => s != ""
  | .vfloat q => q != 0
  | .vother => true

/-- Embeds `examples.any()`: true when some element of the batch is truthy. -/
def anyTruthy (examples : List (List Val)) : Bool :=
  examples.any (fun row => row.any truthyVal)

/-- The numpy shape of a 2-D example batch. -/
def batchShape (examples : List (List Val)) : List Nat :=
  [examples.length, (examples.headD []).length]

/-- The numpy shape of a prediction output array. -/
def ndshape : NDArray → List Nat
  | .scalar _ => []
  | .one xs => [xs.length]
  | .two m => [m.length, (m.headD []).length]
  | .three t => [t.length, (t.headD []).length, ((t.headD []).headD []).length]

/-- Embeds `array[0]` on a prediction output: fails (IndexError) on a 0-d
array or an empty first axis. -/
def ndIndex0 : NDArray → Option NDSub
  | .scalar _ => none
  | .one [] => none
  | .one (x :: _) => some (NDSub.cell x)
  | .two [] => none
  | .two (r :: _) => some (NDSub.row r)
  | .three [] => none
  | .three (m :: _) => some (NDSub.mat m)

/-- Embeds `isinstance(self.examples, np.ndarray)` in `model_report`.  Both
`np.array(None)` (the unbound sentinel) and a bound batch are ndarray
instances, so this test is true in every state. -/
def isNdarray : ExamplesState → Bool
  | _ => true

/-- A numpy array of natural numbers of rank 0, 1 or 2, as produced by the
one-hot pipeline after `np.squeeze`. -/
inductive NDNat : Type
  | scalar (v : Nat)
  | one (xs : List Nat)
  | two (m : List (List Nat))
deriving DecidableEq, Repr

/-- Whether an `NDNat` value is a 2-D matrix. -/
def NDNat.isTwoD : NDNat → Bool
  | .two _ => true
  | _ => false

/-- Embeds `LabelEncoder().fit(output).classes_`: the distinct label values
in sorted order (`np.unique`). -/
def labelClasses (L : List Val) : List Val :=
  L.dedup.insertionSort (· ≤ ·)

/-- Embeds `LabelEncoder().fit_transform` on one label: the dense integer
code of `x`, its index in the sorted distinct values. -/
def encodeLabel (L : List Val) (x : Val) : Nat :=
  (labelClasses L).indexOf x

/-- One row of the dense one-hot matrix built by `OneHotEncoder`: width `k`,
a 1 in column `i` and 0 elsewhere. -/
def onehotRow (k i : Nat) : List Nat :=
  (List.range k).map (fun j => if j = i then 1 else 0)

/-- The dense one-hot matrix for the label sequence `L` before squeezing:
row for `labels[i]` has its 1 in column `encodeLabel L labels[i]`. -/
def onehotMatrix (L : List Val) : List (List Nat) :=
  L.map (fun x => onehotRow (labelClasses L).length (encodeLabel L x))

/-- Embeds `np.squeeze` on a 2-D matrix: removes every axis of size 1. -/
def squeezeMat (m : List (List Nat)) : NDNat :=
  if m.length = 1 ∧ (m.headD []).length = 1 then
    NDNat.scalar ((m.headD []).headD 0)
  else if m.length = 1 then
    NDNat.one (m.headD [])
  else if (m.headD []).length = 1 then
    NDNat.one (m.map (fun r => r.headD 0))
  else
    NDNat.two m

/-- Embeds `Model.predict_function_transformer`: label-encode the 1-D output,
one-hot encode the codes into a dense matrix, and squeeze. -/
def predict_function_transformer (output : List Val) : NDNat :=
  squeezeMat (onehotMatrix output)

/-- Embeds `Model.return_transformer_func`: the one-hot transform exactly
when `self.model_type == classifier and not self.probability`.  The sentinels
`unknown` and `not_applicable` are truthy strings in the source, so
`not self.probability` holds only for the boolean `False` (modelled from the
spec: identity is returned in every other case, including all unknown
states). -/
def return_transformer_func (st : ModelState) : Formatter :=
  if st.model_type = ModelType.classifier ∧ st.probability = ProbState.pfalse then
    Formatter.oneHot
  else
    Formatter.identity

/-- Converts the one-hot pipeline result back into a value array. -/
def ndNatToNDArray : NDNat → NDArray
  | .scalar v => NDArray.scalar (Val.vint v)
  | .one xs => NDArray.one (xs.map (fun v => Val.vint v))
  | .two m => NDArray.two (m.map (fun r => r.map (fun v => Val.vint v)))

/-- Applies the cached formatter to a raw prediction output.  Modelled from
the spec: the label/one-hot encoding collaborator accepts a 1-D array of
discrete labels, so applying the one-hot transform to an output of any other
rank fails (returns none). -/
def applyFormatter : Formatter → NDArray → Option NDArray
  | .identity, a => some a
  | .oneHot, .one xs => some (ndNatToNDArray (predict_function_transformer xs))
  | .oneHot, _ => none

/-- Embeds `Model.model_report`: when `self.examples` is an ndarray (always,
since `np.array(None)` is one) it evaluates `examples[0]` and
`self.predict(examples)[0]` for the example/output lines, then appends the
attribute lines. -/
def model_report (predict : List (List Val) → NDArray) (st : ModelState)
    (examples : List (List Val)) : Except ModelErr (List ReportLine) :=
  let attrs := [ReportLine.modelTypeLine st.model_type,
                ReportLine.outputVarTypeLine st.output_var_type,
                ReportLine.outputShapeLine st.output_shape,
                ReportLine.nClassesLine st.n_classes,
                ReportLine.inputShapeLine st.input_shape,
                ReportLine.probabilityLine st.probability]
  if isNdarray st.examples then
    match examples, ndIndex0 (predict examples) with
    | ex0 :: _, some o0 =>
        Except.ok (ReportLine.exampleLine ex0 :: ReportLine.outputsLine o0 :: attrs)
    | _, _ => Except.error ModelErr.indexError
  else
    Except.ok attrs

/-- Embeds `self.formatter = self.return_transformer_func()`: caches the
transformer chosen from the attributes as classified so far. -/
def withFormatter (st : ModelState) : ModelState :=
  { st with formatter := return_transformer_func st }

/-- The tail of `check_output_signature` after a branch has classified the
outputs: cache the formatter, build the diagnostic report, and emit the
collected warnings followed by the debug lines.  An exception from
`model_report` propagates with the attributes as mutated so far. -/
def emitAndReport (predict : List (List Val) → NDArray) (st : ModelState)
    (examples : List (List Val)) (warns : List LogMsg) :
    Except (ModelErr × ModelState) (ModelState × List LogMsg) :=
  match model_report predict (withFormatter st) examples with
  | Except.error e => Except.error (e, withFormatter st)
  | Except.ok reports => Except.ok (withFormatter st, warns ++ reports.map LogMsg.debug)

/-- Message of the `ModelError` raised on an example batch with no truthy
element. -/
def emptyExamplesMsg : String :=
  "Examples have not been provided. Cannot check outputs"

/-- Message of the `ValueError` raised on unsupported output rank. -/
def dimMsg : String :=
  "Unsupported model type, output dim = 3"

/-- Warning emitted on the 1-D float path (the two adjacent string literals
of the source concatenate without a space). -/
def regressorWarnMsg : String :=
  "Inferring model type to be a regressordue to 1D array of floats"

/-- Embeds `Model.check_output_signature`.  Raises `ModelError` when
`examples.any()` is false; otherwise runs `predict` once, records the input
and output shapes, classifies by output rank and element type, caches the
formatter and emits the diagnostic report.  An exception carries the
attribute record as mutated up to the raise; success returns the final
record and the emitted log messages. -/
def check_output_signature (predict : List (List Val) → NDArray) (st : ModelState)
    (examples : List (List Val)) :
    Except (ModelErr × ModelState) (ModelState × List LogMsg) :=
  if anyTruthy examples = false then
    Except.error (ModelErr.modelError emptyExamplesMsg, st)
  else
    let outputs := predict examples
    let st1 := { st with input_shape := ShapeState.shape (batchShape examples),
                         output_shape := ShapeState.shape (ndshape outputs) }
    match outputs with
    | NDArray.one [] => Except.error (ModelErr.indexError, st1)
    | NDArray.one (x :: rest) =>
        let t := return_data_type x
        let st2 := { st1 with output_var_type := t }
        if t = OutputType.string ∨ t = OutputType.int then
          emitAndReport predict
            { st2 with model_type := ModelType.classifier,
                       probability := ProbState.pfalse,
                       n_classes := NClasses.n (x :: rest).dedup.length }
            examples []
        else if t = OutputType.float then
          emitAndReport predict
            { st2 with model_type := ModelType.regressor,
                       n_classes := NClasses.n 1,
                       probability := ProbState.notApplicable }
            examples [LogMsg.warn regressorWarnMsg]
        else
          emitAndReport predict st2 examples []
    | NDArray.two m =>
        let st2 := { st1 with model_type := ModelType.classifier,
                              n_classes := NClasses.n (m.headD []).length }
        match m with
        | [] => Except.error (ModelErr.indexError, st2)
        | [] :: _ => Except.error (ModelErr.indexError, st2)
        | (v :: _) :: _ =>
            let t := return_data_type v
            emitAndReport predict
              { st2 with output_var_type := t,
                         probability := if t = OutputType.float then ProbState.ptrue
                                        else ProbState.pfalse }
              examples []
    | NDArray.scalar _ => Except.error (ModelErr.valueError dimMsg, st1)
    | NDArray.three _ => Except.error (ModelErr.valueError dimMsg, st1)

/-- A batch with a truthy element is non-empty. -/
theorem anyTruthy_ne_nil {examples : List (List Val)} (h : anyTruthy examples = true) :
    examples ≠ [] := by
  intro hnil
  rw [hnil] at h
  simp [anyTruthy] at h

/-- The sorted class list has one entry per distinct label value. -/
theorem length_labelClasses (L : List Val) : (labelClasses L).length = L.dedup.length :=
  (List.perm_insertionSort (· ≤ ·) L.dedup).length_eq

/-- Membership in the sorted class list coincides with membership in the
label sequence. -/
theorem mem_labelClasses {L : List Val} {x : Val} : x ∈ labelClasses L ↔ x ∈ L := by
  unfold labelClasses
  rw [List.mem_insertionSort, List.mem_dedup]

/-- The sorted class list has no duplicates. -/
theorem nodup_labelClasses (L : List Val) : (labelClasses L).Nodup :=
  (List.perm_insertionSort (· ≤ ·) L.dedup).nodup_iff.mpr (List.nodup_dedup L)

/-- Every label of the sequence has an encoded index below the class count. -/
theorem encodeLabel_lt {L : List Val} {x : Val} (hx : x ∈ L) :
    encodeLabel L x < (labelClasses L).length :=
  List.indexOf_lt_length.mpr (mem_labelClasses.mpr hx)

/-- A one-hot row has the requested width. -/
theorem length_onehotRow (k i : Nat) : (onehotRow k i).length = k := by
  simp [onehotRow]

/-- Entry `j` of a one-hot row is 1 at the hot index and 0 elsewhere. -/
theorem get_onehotRow (k i j : Nat) (hj : j < (onehotRow k i).length) :
    (onehotRow k i).get ⟨j, hj⟩ = if j = i then 1 else 0 := by
  simp [onehotRow]

/-- A one-hot row whose hot index is out of range contains no 1. -/
theorem count_onehotRow_of_ge (k i : Nat) (hi : k ≤ i) : (onehotRow k i).count 1 = 0 := by
  induction k with
  | zero => simp [onehotRow]
  | succ k ih =>
      have hk : k ≠ i := by omega
      have : onehotRow (k + 1) i = onehotRow k i ++ [if k = i then 1 else 0] := by
        simp [onehotRow, List.range_succ]
      rw [this, List.count_append, ih (by omega)]
      simp [hk]

/-- A one-hot row with an in-range hot index contains exactly one 1. -/
theorem count_onehotRow (k i : Nat) (hi : i < k) : (onehotRow k i).count 1 = 1 := by
  induction k with
  | zero => omega
  | succ k ih =>
      have hsplit : onehotRow (k + 1) i = onehotRow k i ++ [if k = i then 1 else 0] := by
        simp [onehotRow, List.range_succ]
      rw [hsplit, List.count_append]
      by_cases hk : i = k
      · rw [hk, count_onehotRow_of_ge k k (le_refl k)]
        simp
      · have hik : i < k := by omega
        rw [ih hik]
        have : k ≠ i := fun h => hk h.symm
        simp [this]

/-- An exception escaping `model_report` is always the IndexError from
indexing an empty array. -/
theorem model_report_error {predict : List (List Val) → NDArray} {st : ModelState}
    {examples : List (List Val)} {e : ModelErr}
    (h : model_report predict st examples = Except.error e) : e = ModelErr.indexError := by
  unfold model_report at h
  rcases examples with _ | ⟨ex0, exs⟩
  · simp [isNdarray] at h
    exact h.symm
  · rcases h1 : ndIndex0 (predict (ex0 :: exs)) with _ | o1 <;> simp [isNdarray, h1] at h
    exact h.symm

/-- The report-and-log tail of `check_output_signature` never raises the
empty-examples `ModelError`. -/
theorem emitAndReport_ne_modelError (predict : List (List Val) → NDArray) (st : ModelState)
    (examples : List (List Val)) (warns : List LogMsg) (msg : String) (st'' : ModelState) :
    emitAndReport predict st examples warns ≠
      Except.error (ModelErr.modelError msg, st'') := by
  intro hcontra
  unfold emitAndReport at hcontra
  split at hcontra
  · rename_i e heq
    have he := model_report_error heq
    rw [he] at hcontra
    simp at hcontra
  · simp at hcontra

/-- On success, the report-and-log tail leaves every classification
attribute as the branch set it, caches the formatter chosen by
`return_transformer_func`, and emits the collected warnings. -/
theorem emitAndReport_ok {predict : List (List Val) → NDArray} {st st' : ModelState}
    {examples : List (List Val)} {warns logs : List LogMsg}
    (h : emitAndReport predict st examples warns = Except.ok (st', logs)) :
    st'.model_type = st.model_type ∧
    st'.output_var_type = st.output_var_type ∧
    st'.n_classes = st.n_classes ∧
    st'.probability = st.probability ∧
    st'.formatter = return_transformer_func st ∧
    ∀ w ∈ warns, w ∈ logs := by
  unfold emitAndReport at h
  split at h
  · simp at h
  · rename_i reports heq
    simp only [Except.ok.injEq, Prod.mk.injEq] at h
    obtain ⟨hst, hlogs⟩ := h
    rw [← hst]
    refine ⟨rfl, rfl, rfl, rfl, rfl, ?_⟩
    intro w hw
    rw [← hlogs]
    exact List.mem_append_left _ hw

/-- C1: for a model whose predict function returns a 1-D array whose first
element is of string or integer type, a successful call to
`check_output_signature` on a non-empty example batch sets
`model_type = classifier`, `probability = false`, and `n_classes` = the
number of distinct values across all returned outputs. -/
theorem spec_c1_oneD_discrete_classifier
    (predict : List (List Val) → NDArray) (st st' : ModelState)
    (examples : List (List Val)) (logs : List LogMsg) (x : Val) (rest : List Val)
    (_hne : examples ≠ [])
    (hok : check_output_signature predict st examples = Except.ok (st', logs))
    (hout : predict examples = NDArray.one (x :: rest))
    (ht : return_data_type x = OutputType.string ∨ return_data_type x = OutputType.int) :
    st'.model_type = ModelType.classifier ∧
    st'.probability = ProbState.pfalse ∧
    st'.n_classes = NClasses.n (x :: rest).dedup.length := by
  by_cases ha : anyTruthy examples = false
  · simp [check_output_signature, ha] at hok
  · rcases ht with h1 | h1 <;>
      simp [check_output_signature, ha, hout, h1] at hok <;>
      · obtain ⟨hm, hv, hn, hp, hf, _⟩ := emitAndReport_ok hok
        exact ⟨hm, hp, hn⟩

/-- Concrete predict function for the C1 witness: three 1-D integer labels. -/
def predC1 : List (List Val) → NDArray :=
  fun _ => NDArray.one [Val.vint 1, Val.vint 2, Val.vint 1]

/-- The attribute record produced by `check_output_signature` on `predC1`. -/
def stC1 : ModelState where
  examples := ExamplesState.noneArr
  model_type := ModelType.classifier
  output_var_type := OutputType.int
  output_shape := ShapeState.shape [3]
  n_classes := NClasses.n 2
  input_shape := ShapeState.shape [1, 1]
  probability := ProbState.pfalse
  formatter := Formatter.oneHot

/-- The log messages produced by `check_output_signature` on `predC1`. -/
def logsC1 : List LogMsg :=
  [LogMsg.debug (ReportLine.exampleLine [Val.vint 1]),
   LogMsg.debug (ReportLine.outputsLine (NDSub.cell (Val.vint 1))),
   LogMsg.debug (ReportLine.modelTypeLine ModelType.classifier),
   LogMsg.debug (ReportLine.outputVarTypeLine OutputType.int),
   LogMsg.debug (ReportLine.outputShapeLine (ShapeState.shape [3])),
   LogMsg.debug (ReportLine.nClassesLine (NClasses.n 2)),
   LogMsg.debug (ReportLine.inputShapeLine (ShapeState.shape [1, 1])),
   LogMsg.debug (ReportLine.probabilityLine ProbState.pfalse)]

/-- Witness for C1 at a concrete model: three integer labels with two
distinct values give a classifier with `probability = false` and
`n_classes = 2`. -/
theorem spec_c1_witness :
    ([[Val.vint 1]] : List (List Val)) ≠ [] ∧
    check_output_signature predC1 initState [[Val.vint 1]] = Except.ok (stC1, logsC1) ∧
    predC1 [[Val.vint 1]] = NDArray.one [Val.vint 1, Val.vint 2, Val.vint 1] ∧
    (return_data_type (Val.vint 1) = OutputType.string ∨
      return_data_type (Val.vint 1) = OutputType.int) ∧
    (stC1.model_type = ModelType.classifier ∧
     stC1.probability = ProbState.pfalse ∧
     stC1.n_classes = NClasses.n [Val.vint 1, Val.vint 2, Val.vint 1].dedup.length) :=
  ⟨by simp, rfl, rfl, Or.inr rfl,
    spec_c1_oneD_discrete_classifier predC1 initState stC1 [[Val.vint 1]] logsC1
      (Val.vint 1) [Val.vint 2, Val.vint 1] (by simp) rfl rfl (Or.inr rfl)⟩

/-- C2: for a model whose predict function returns a 2-D array of shape
(N, K), a successful call to `check_output_signature` sets
`model_type = classifier`, `n_classes = K`, and `probability = true` exactly
when element [0][0] is floating-point (`probability = false` otherwise). -/
theorem spec_c2_twoD_classifier
    (predict : List (List Val) → NDArray) (st st' : ModelState)
    (examples : List (List Val)) (logs : List LogMsg) (v : Val) (r : List Val)
    (rs : List (List Val))
    (hok : check_output_signature predict st examples = Except.ok (st', logs))
    (hout : predict examples = NDArray.two ((v :: r) :: rs)) :
    st'.model_type = ModelType.classifier ∧
    st'.n_classes = NClasses.n (v :: r).length ∧
    (st'.probability = ProbState.ptrue ↔ return_data_type v = OutputType.float) ∧
    (st'.probability = ProbState.pfalse ↔ ¬ return_data_type v = OutputType.float) := by
  by_cases ha : anyTruthy examples = false
  · simp [check_output_signature, ha] at hok
  · simp [check_output_signature, ha, hout] at hok
    obtain ⟨hm, hv, hn, hp, hf, _⟩ := emitAndReport_ok hok
    by_cases hfl : return_data_type v = OutputType.float
    · rw [if_pos hfl] at hp
      exact ⟨hm, hn, by simp [hp, hfl], by simp [hp, hfl]⟩
    · rw [if_neg hfl] at hp
      exact ⟨hm, hn, by simp [hp, hfl], by simp [hp, hfl]⟩

/-- Concrete predict function for the C2 witness: one row of two float
scores. -/
def predC2 : List (List Val) → NDArray :=
  fun _ => NDArray.two [[Val.vfloat 2, Val.vfloat 3]]

/-- The attribute record produced by `check_output_signature` on `predC2`. -/
def stC2 : ModelState where
  examples := ExamplesState.noneArr
  model_type := ModelType.classifier
  output_var_type := OutputType.float
  output_shape := ShapeState.shape [1, 2]
  n_classes := NClasses.n 2
  input_shape := ShapeState.shape [1, 1]
  probability := ProbState.ptrue
  formatter := Formatter.identity

/-- The log messages produced by `check_output_signature` on `predC2`. -/
def logsC2 : List LogMsg :=
  [LogMsg.debug (ReportLine.exampleLine [Val.vint 1]),
   LogMsg.debug (ReportLine.outputsLine (NDSub.row [Val.vfloat 2, Val.vfloat 3])),
   LogMsg.debug (ReportLine.modelTypeLine ModelType.classifier),
   LogMsg.debug (ReportLine.outputVarTypeLine OutputType.float),
   LogMsg.debug (ReportLine.outputShapeLine (ShapeState.shape [1, 2])),
   LogMsg.debug (ReportLine.nClassesLine (NClasses.n 2)),
   LogMsg.debug (ReportLine.inputShapeLine (ShapeState.shape [1, 1])),
   LogMsg.debug (ReportLine.probabilityLine ProbState.ptrue)]

/-- Witness for C2 at a concrete model: a (1, 2) float output gives a
classifier with two classes and `probability = true`. -/
theorem spec_c2_witness :
    check_output_signature predC2 initState [[Val.vint 1]] = Except.ok (stC2, logsC2) ∧
    predC2 [[Val.vint 1]] = NDArray.two [[Val.vfloat 2, Val.vfloat 3]] ∧
    (stC2.model_type = ModelType.classifier ∧
     stC2.n_classes = NClasses.n [Val.vfloat 2, Val.vfloat 3].length ∧
     (stC2.probability = ProbState.ptrue ↔ return_data_type (Val.vfloat 2) = OutputType.float) ∧
     (stC2.probability = ProbState.pfalse ↔
       ¬ return_data_type (Val.vfloat 2) = OutputType.float)) :=
  ⟨rfl, rfl,
    spec_c2_twoD_classifier predC2 initState stC2 [[Val.vint 1]] logsC2
      (Val.vfloat 2) [Val.vfloat 3] [] rfl rfl⟩

/-- C3: for a model whose predict function returns a 1-D array whose first
element is of floating-point type, a successful call to
`check_output_signature` sets `model_type = regressor`, `n_classes = 1`,
`probability = not-applicable`, and emits a warning through the logging
collaborator. -/
theorem spec_c3_oneD_float_regressor
    (predict : List (List Val) → NDArray) (st st' : ModelState)
    (examples : List (List Val)) (logs : List LogMsg) (x : Val) (rest : List Val)
    (hok : check_output_signature predict st examples = Except.ok (st', logs))
    (hout : predict examples = NDArray.one (x :: rest))
    (ht : return_data_type x = OutputType.float) :
    st'.model_type = ModelType.regressor ∧
    st'.n_classes = NClasses.n 1 ∧
    st'.probability = ProbState.notApplicable ∧
    LogMsg.warn regressorWarnMsg ∈ logs := by
  by_cases ha : anyTruthy examples = false
  · simp [check_output_signature, ha] at hok
  · simp [check_output_signature, ha, hout, ht] at hok
    obtain ⟨hm, hv, hn, hp, hf, hw⟩ := emitAndReport_ok hok
    exact ⟨hm, hn, hp, hw _ (by simp)⟩

/-- Concrete predict function for the C3 witness: one 1-D float output. -/
def predC3 : List (List Val) → NDArray :=
  fun _ => NDArray.one [Val.vfloat 2]

/-- The attribute record produced by `check_output_signature` on `predC3`. -/
def stC3 : ModelState where
  examples := ExamplesState.noneArr
  model_type := ModelType.regressor
  output_var_type := OutputType.float
  output_shape := ShapeState.shape [1]
  n_classes := NClasses.n 1
  input_shape := ShapeState.shape [1, 1]
  probability := ProbState.notApplicable
  formatter := Formatter.identity

/-- The log messages produced by `check_output_signature` on `predC3`. -/
def logsC3 : List LogMsg :=
  [LogMsg.warn regressorWarnMsg,
   LogMsg.debug (ReportLine.exampleLine [Val.vint 1]),
   LogMsg.debug (ReportLine.outputsLine (NDSub.cell (Val.vfloat 2))),
   LogMsg.debug (ReportLine.modelTypeLine ModelType.regressor),
   LogMsg.debug (ReportLine.outputVarTypeLine OutputType.float),
   LogMsg.debug (ReportLine.outputShapeLine (ShapeState.shape [1])),
   LogMsg.debug (ReportLine.nClassesLine (NClasses.n 1)),
   LogMsg.debug (ReportLine.inputShapeLine (ShapeState.shape [1, 1])),
   LogMsg.debug (ReportLine.probabilityLine ProbState.notApplicable)]

/-- Witness for C3 at a concrete model: a 1-D float output gives a regressor
with one class, `probability = not-applicable`, and the warning emitted. -/
theorem spec_c3_witness :
    check_output_signature predC3 initState [[Val.vint 1]] = Except.ok (stC3, logsC3) ∧
    predC3 [[Val.vint 1]] = NDArray.one [Val.vfloat 2] ∧
    return_data_type (Val.vfloat 2) = OutputType.float ∧
    (stC3.model_type = ModelType.regressor ∧
     stC3.n_classes = NClasses.n 1 ∧
     stC3.probability = ProbState.notApplicable ∧
     LogMsg.warn regressorWarnMsg ∈ logsC3) :=
  ⟨rfl, rfl, rfl,
    spec_c3_oneD_float_regressor predC3 initState stC3 [[Val.vint 1]] logsC3
      (Val.vfloat 2) [] rfl rfl rfl⟩

/-- C4 counterexample: for the two-element label sequence [0, 0] (one
distinct value) the squeeze step collapses the (2, 1) one-hot matrix to the
1-D array [1, 1], so the result is not a 2-D matrix with one row per
label. -/
theorem spec_c4_counterexample :
    predict_function_transformer [Val.vint 0, Val.vint 0] = NDNat.one [1, 1] ∧
    (predict_function_transformer [Val.vint 0, Val.vint 0]).isTwoD = false :=
  ⟨rfl, rfl⟩

/-- C4 (amended): for a label sequence with at least two labels and at least
two distinct values, `predict_function_transformer` yields a 2-D matrix with
one row per label and one column per distinct value, where row i holds a
single 1, in the column of label i's encoded index, and 0 elsewhere.  (When
the sequence has a single label or a single distinct value, the squeeze step
collapses the matrix to rank 0 or 1.) -/
theorem spec_c4_onehot (L : List Val) (hL : 2 ≤ L.length) (hk : 2 ≤ L.dedup.length) :
    ∃ M : List (List Nat),
      predict_function_transformer L = NDNat.two M ∧
      M.length = L.length ∧
      ∀ i, ∀ hi : i < L.length, ∃ hrow : i < M.length,
        M[i].length = L.dedup.length ∧
        M[i].count 1 = 1 ∧
        encodeLabel L L[i] < L.dedup.length ∧
        ∀ j, ∀ hj : j < M[i].length,
          M[i][j] = if j = encodeLabel L L[i] then 1 else 0 := by
  have hkc : 2 ≤ (labelClasses L).length := by
    rw [length_labelClasses]
    exact hk
  have hrows : (onehotMatrix L).length = L.length := by
    simp [onehotMatrix]
  have hcols : ((onehotMatrix L).headD []).length = (labelClasses L).length := by
    cases L with
    | nil => simp at hL
    | cons a L' => simp [onehotMatrix, length_onehotRow]
  refine ⟨onehotMatrix L, ?_, hrows, ?_⟩
  · have h1 : ¬((onehotMatrix L).length = 1 ∧ ((onehotMatrix L).headD []).length = 1) := by
      rintro ⟨h1, -⟩
      omega
    have h2 : ¬((onehotMatrix L).length = 1) := by
      intro h
      omega
    have h3 : ¬(((onehotMatrix L).headD []).length = 1) := by
      intro h
      omega
    unfold predict_function_transformer squeezeMat
    rw [if_neg h1, if_neg h2, if_neg h3]
  · intro i hi
    have hrow : i < (onehotMatrix L).length := by
      rw [hrows]
      exact hi
    have hMi : (onehotMatrix L)[i] = onehotRow (labelClasses L).length (encodeLabel L L[i]) := by
      simp [onehotMatrix]
    have hmem : L[i] ∈ L := List.getElem_mem hi
    have henc : encodeLabel L L[i] < (labelClasses L).length :=
      encodeLabel_lt hmem
    refine ⟨hrow, ?_, ?_, ?_, ?_⟩
    · rw [hMi, length_onehotRow, length_labelClasses]
    · rw [hMi]
      exact count_onehotRow _ _ henc
    · rw [← length_labelClasses]
      exact henc
    · intro j hj
      simp [onehotMatrix, onehotRow]

/-- Witness for C4 (amended) at the concrete label sequence [1, 2, 1]:
three labels, two distinct values. -/
theorem spec_c4_witness :
    2 ≤ ([Val.vint 1, Val.vint 2, Val.vint 1] : List Val).length ∧
    2 ≤ ([Val.vint 1, Val.vint 2, Val.vint 1] : List Val).dedup.length ∧
    (∃ M : List (List Nat),
      predict_function_transformer [Val.vint 1, Val.vint 2, Val.vint 1] = NDNat.two M ∧
      M.length = ([Val.vint 1, Val.vint 2, Val.vint 1] : List Val).length ∧
      ∀ i, ∀ hi : i < ([Val.vint 1, Val.vint 2, Val.vint 1] : List Val).length,
        ∃ hrow : i < M.length,
        M[i].length = ([Val.vint 1, Val.vint 2, Val.vint 1] : List Val).dedup.length ∧
        M[i].count 1 = 1 ∧
        encodeLabel [Val.vint 1, Val.vint 2, Val.vint 1]
            ([Val.vint 1, Val.vint 2, Val.vint 1] : List Val)[i] <
          ([Val.vint 1, Val.vint 2, Val.vint 1] : List Val).dedup.length ∧
        ∀ j, ∀ hj : j < M[i].length,
          M[i][j] = if j = encodeLabel [Val.vint 1, Val.vint 2, Val.vint 1]
              ([Val.vint 1, Val.vint 2, Val.vint 1] : List Val)[i] then 1 else 0) :=
  ⟨by decide, by decide,
    spec_c4_onehot [Val.vint 1, Val.vint 2, Val.vint 1] (by decide) (by decide)⟩

/-- C9: `predict_function_transformer` is deterministic (it is a pure
function, so equal inputs give bit-identical results) and its column order
is the single consistent order given by sorting the distinct label values:
the class list it indexes columns by is sorted, duplicate-free, and holds
exactly the values of the label sequence. -/
theorem spec_c9_deterministic_sorted (L : List Val) :
    predict_function_transformer L = predict_function_transformer L ∧
    List.Sorted (fun a b => a ≤ b) (labelClasses L) ∧
    (labelClasses L).Nodup ∧
    ∀ x : Val, x ∈ labelClasses L ↔ x ∈ L :=
  ⟨rfl, List.sorted_insertionSort _ _, nodup_labelClasses L, fun _ => mem_labelClasses⟩

/-- Concrete predict function for the C5 counterexample. -/
def predC5 : List (List Val) → NDArray :=
  fun _ => NDArray.one [Val.vint 1]

/-- C5 counterexample: a non-empty batch whose entries are all zero fails
the `examples.any()` test, so `check_output_signature` raises the
`ModelError` even though the batch is not empty. -/
theorem spec_c5_counterexample :
    ([[Val.vint 0, Val.vint 0]] : List (List Val)) ≠ [] ∧
    check_output_signature predC5 initState [[Val.vint 0, Val.vint 0]] =
      Except.error (ModelErr.modelError emptyExamplesMsg, initState) :=
  ⟨by simp, rfl⟩

/-- C5 (amended): `check_output_signature` raises the empty-examples
`ModelError` if and only if the batch has no truthy element (in particular on
every empty batch, but also on non-empty all-zero batches), and when it is
raised every prior attribute is left unchanged (the error carries the
untouched state). -/
theorem spec_c5_modelError_iff (predict : List (List Val) → NDArray)
    (st : ModelState) (examples : List (List Val)) :
    check_output_signature predict st examples =
      Except.error (ModelErr.modelError emptyExamplesMsg, st) ↔
    anyTruthy examples = false := by
  constructor
  · intro h
    by_contra hta
    rcases hp : predict examples with v | xs | m | t3
    · simp [check_output_signature, hta, hp] at h
    · rcases xs with _ | ⟨x, rest⟩
      · simp [check_output_signature, hta, hp] at h
      · rcases hx : return_data_type x with _ | _ | _ | _ <;>
          simp [check_output_signature, hta, hp, hx] at h <;>
          exact emitAndReport_ne_modelError _ _ _ _ _ _ h
    · rcases m with _ | ⟨r, rs⟩
      · simp [check_output_signature, hta, hp] at h
      · rcases r with _ | ⟨v, r'⟩
        · simp [check_output_signature, hta, hp] at h
        · simp [check_output_signature, hta, hp] at h
          exact emitAndReport_ne_modelError _ _ _ _ _ _ h
    · simp [check_output_signature, hta, hp] at h
  · intro h
    simp [check_output_signature, h]

/-- Concrete rank-3 predict function for C6. -/
def predC6 : List (List Val) → NDArray :=
  fun _ => NDArray.three [[[Val.vint 0]]]

/-- C6 counterexample: a failed call on a rank-3 output does change derived
fields: `input_shape` and `output_shape` are assigned before the rank check
raises, so they differ from their prior (sentinel) values afterwards. -/
theorem spec_c6_counterexample :
    check_output_signature predC6 initState [[Val.vint 1]] =
      Except.error (ModelErr.valueError dimMsg,
        { initState with input_shape := ShapeState.shape [1, 1],
                         output_shape := ShapeState.shape [1, 1, 1] }) ∧
    ShapeState.shape [1, 1, 1] ≠ initState.output_shape ∧
    ShapeState.shape [1, 1] ≠ initState.input_shape :=
  ⟨rfl, by decide, by decide⟩

/-- C6 (amended): on a rank-3 output `check_output_signature` raises the
value-domain error; `model_type`, `output_var_type`, `n_classes`,
`probability` and `formatter` keep their prior values, but `input_shape` and
`output_shape` are assigned before the raise and so are changed by the
failed call. -/
theorem spec_c6_rank3_partial_mutation (predict : List (List Val) → NDArray)
    (st : ModelState) (examples : List (List Val)) (t3 : List (List (List Val)))
    (ha : anyTruthy examples = true)
    (hout : predict examples = NDArray.three t3) :
    ∃ stErr : ModelState,
      check_output_signature predict st examples =
        Except.error (ModelErr.valueError dimMsg, stErr) ∧
      stErr.model_type = st.model_type ∧
      stErr.output_var_type = st.output_var_type ∧
      stErr.n_classes = st.n_classes ∧
      stErr.probability = st.probability ∧
      stErr.formatter = st.formatter ∧
      stErr.input_shape = ShapeState.shape (batchShape examples) ∧
      stErr.output_shape = ShapeState.shape (ndshape (NDArray.three t3)) := by
  have ha' : ¬(anyTruthy examples = false) := by simp [ha]
  refine ⟨{ st with input_shape := ShapeState.shape (batchShape examples),
                    output_shape := ShapeState.shape (ndshape (NDArray.three t3)) },
          ?_, rfl, rfl, rfl, rfl, rfl, rfl, rfl⟩
  simp [check_output_signature, ha', hout]

/-- Witness for C6 (amended) at a concrete rank-3 model. -/
theorem spec_c6_witness :
    anyTruthy [[Val.vint 1]] = true ∧
    predC6 [[Val.vint 1]] = NDArray.three [[[Val.vint 0]]] ∧
    (∃ stErr : ModelState,
      check_output_signature predC6 initState [[Val.vint 1]] =
        Except.error (ModelErr.valueError dimMsg, stErr) ∧
      stErr.model_type = initState.model_type ∧
      stErr.output_var_type = initState.output_var_type ∧
      stErr.n_classes = initState.n_classes ∧
      stErr.probability = initState.probability ∧
      stErr.formatter = initState.formatter ∧
      stErr.input_shape = ShapeState.shape (batchShape [[Val.vint 1]]) ∧
      stErr.output_shape = ShapeState.shape (ndshape (NDArray.three [[[Val.vint 0]]]))) :=
  ⟨rfl, rfl,
    spec_c6_rank3_partial_mutation predC6 initState [[Val.vint 1]] [[[Val.vint 0]]] rfl rfl⟩

/-- C7 (amended): for a 2-D output with integer entries, a successful call
sets `probability = false`, and the formatter cached by that call is the
one-hot transformer, not the identity: applied to any 2-D raw output it
fails (the encoding collaborator accepts only 1-D label arrays), so it does
not act as the identity on the raw output. -/
theorem spec_c7_twoD_int_formatter (predict : List (List Val) → NDArray)
    (st st' : ModelState) (examples : List (List Val)) (logs : List LogMsg)
    (v : Val) (r : List Val) (rs : List (List Val))
    (hok : check_output_signature predict st examples = Except.ok (st', logs))
    (hout : predict examples = NDArray.two ((v :: r) :: rs))
    (ht : return_data_type v = OutputType.int) :
    st'.probability = ProbState.pfalse ∧
    st'.formatter = Formatter.oneHot ∧
    ∀ m : List (List Val), applyFormatter st'.formatter (NDArray.two m) = none := by
  by_cases ha : anyTruthy examples = false
  · simp [check_output_signature, ha] at hok
  · simp [check_output_signature, ha, hout, ht] at hok
    obtain ⟨hm, hv, hn, hp, hf, _⟩ := emitAndReport_ok hok
    have hp' : st'.probability = ProbState.pfalse := hp
    have hf' : st'.formatter = Formatter.oneHot := by
      rw [hf]
      rfl
    refine ⟨hp', hf', ?_⟩
    intro m
    rw [hf']
    rfl

/-- Concrete predict function for C7: a (2, 2) integer output. -/
def predC7 : List (List Val) → NDArray :=
  fun _ => NDArray.two [[Val.vint 0, Val.vint 1], [Val.vint 1, Val.vint 0]]

/-- Concrete example batch for C7. -/
def exC7 : List (List Val) :=
  [[Val.vint 1], [Val.vint 2]]

/-- The attribute record produced by `check_output_signature` on `predC7`. -/
def stC7 : ModelState where
  examples := ExamplesState.noneArr
  model_type := ModelType.classifier
  output_var_type := OutputType.int
  output_shape := ShapeState.shape [2, 2]
  n_classes := NClasses.n 2
  input_shape := ShapeState.shape [2, 1]
  probability := ProbState.pfalse
  formatter := Formatter.oneHot

/-- The log messages produced by `check_output_signature` on `predC7`. -/
def logsC7 : List LogMsg :=
  [LogMsg.debug (ReportLine.exampleLine [Val.vint 1]),
   LogMsg.debug (ReportLine.outputsLine (NDSub.row [Val.vint 0, Val.vint 1])),
   LogMsg.debug (ReportLine.modelTypeLine ModelType.classifier),
   LogMsg.debug (ReportLine.outputVarTypeLine OutputType.int),
   LogMsg.debug (ReportLine.outputShapeLine (ShapeState.shape [2, 2])),
   LogMsg.debug (ReportLine.nClassesLine (NClasses.n 2)),
   LogMsg.debug (ReportLine.inputShapeLine (ShapeState.shape [2, 1])),
   LogMsg.debug (ReportLine.probabilityLine ProbState.pfalse)]

/-- C7 counterexample: after inference on a (2, 2) integer output the cached
formatter is the one-hot transformer, and applying it to the raw 2-D output
does not yield that output back (it fails), so the formatter does not act as
the identity. -/
theorem spec_c7_counterexample :
    check_output_signature predC7 initState exC7 = Except.ok (stC7, logsC7) ∧
    stC7.formatter = Formatter.oneHot ∧
    applyFormatter stC7.formatter (predC7 exC7) = none ∧
    applyFormatter stC7.formatter (predC7 exC7) ≠ some (predC7 exC7) :=
  ⟨rfl, rfl, rfl, by decide⟩

/-- Witness for C7 (amended) at the concrete (2, 2) integer model. -/
theorem spec_c7_witness :
    check_output_signature predC7 initState exC7 = Except.ok (stC7, logsC7) ∧
    predC7 exC7 = NDArray.two [[Val.vint 0, Val.vint 1], [Val.vint 1, Val.vint 0]] ∧
    return_data_type (Val.vint 0) = OutputType.int ∧
    (stC7.probability = ProbState.pfalse ∧
     stC7.formatter = Formatter.oneHot ∧
     ∀ m : List (List Val), applyFormatter stC7.formatter (NDArray.two m) = none) :=
  ⟨rfl, rfl, rfl,
    spec_c7_twoD_int_formatter predC7 initState stC7 exC7 logsC7
      (Val.vint 0) [Val.vint 1] [[Val.vint 1, Val.vint 0]] rfl rfl rfl⟩

/-- C8: `return_transformer_func` is a pure function of the current
(model_type, probability) state; it returns the one-hot transform exactly
when `model_type = classifier` and `probability = false`, and the identity
transform in every other case, including the unknown sentinels. -/
theorem spec_c8_transformer_selection (st₁ st₂ : ModelState)
    (hmt : st₁.model_type = st₂.model_type) (hp : st₁.probability = st₂.probability) :
    return_transformer_func st₁ = return_transformer_func st₂ ∧
    (return_transformer_func st₁ = Formatter.oneHot ↔
      (st₁.model_type = ModelType.classifier ∧ st₁.probability = ProbState.pfalse)) ∧
    (st₁.model_type = ModelType.unknown → return_transformer_func st₁ = Formatter.identity) ∧
    (st₁.probability = ProbState.unknown → return_transformer_func st₁ = Formatter.identity) ∧
    (st₁.probability = ProbState.notApplicable →
      return_transformer_func st₁ = Formatter.identity) := by
  refine ⟨?_, ?_, ?_, ?_, ?_⟩
  · simp [return_transformer_func, hmt, hp]
  · unfold return_transformer_func
    split_ifs with h
    · simp [h]
    · simp [h]
  · intro hx
    simp [return_transformer_func, hx]
  · intro hx
    simp [return_transformer_func, hx]
  · intro hx
    simp [return_transformer_func, hx]

/-- Witness for C8 at two concrete states that agree on model_type and
probability but differ on n_classes. -/
theorem spec_c8_witness :
    initState.model_type =
      ({ initState with n_classes := NClasses.n 5 } : ModelState).model_type ∧
    initState.probability =
      ({ initState with n_classes := NClasses.n 5 } : ModelState).probability ∧
    (return_transformer_func initState =
       return_transformer_func { initState with n_classes := NClasses.n 5 } ∧
     (return_transformer_func initState = Formatter.oneHot ↔
       (initState.model_type = ModelType.classifier ∧
        initState.probability = ProbState.pfalse)) ∧
     (initState.model_type = ModelType.unknown →
       return_transformer_func initState = Formatter.identity) ∧
     (initState.probability = ProbState.unknown →
       return_transformer_func initState = Formatter.identity) ∧
     (initState.probability = ProbState.notApplicable →
       return_transformer_func initState = Formatter.identity)) :=
  ⟨rfl, rfl, spec_c8_transformer_selection initState _ rfl rfl⟩

/-- Concrete predict function for C10. -/
def predC10 : List (List Val) → NDArray :=
  fun _ => NDArray.one [Val.vint 0]

/-- C10: with no examples bound to the object (`examples` still the
`np.array(None)` sentinel of `__init__`), `model_report` does not omit the
example/output lines: the ndarray guard is satisfied by the sentinel, so the
report still contains the Example and Outputs lines (built from the method
parameter), contradicting the documented graceful degradation. -/
theorem spec_c10_report_includes_lines :
    initState.examples = ExamplesState.noneArr ∧
    isNdarray initState.examples = true ∧
    model_report predC10 initState [[Val.vint 1]] =
      Except.ok [ReportLine.exampleLine [Val.vint 1],
                 ReportLine.outputsLine (NDSub.cell (Val.vint 0)),
                 ReportLine.modelTypeLine ModelType.unknown,
                 ReportLine.outputVarTypeLine OutputType.unknown,
                 ReportLine.outputShapeLine ShapeState.unknown,
                 ReportLine.nClassesLine NClasses.unknown,
                 ReportLine.inputShapeLine ShapeState.unknown,
                 ReportLine.probabilityLine ProbState.unknown] :=
  ⟨rfl, rfl, rfl⟩
